import Mathlib

/-!
Shallow embedding of `src/lambda_function.py` (a scheduled AWS cost reporting
Lambda): `get_cost_data`, `format_cost_message`, `notify_slack` and
`lambda_handler`, together with proofs of the specification's claims.

Modelling conventions:
* Python floats carrying currency amounts are modelled as rationals (`ℚ`).
* The boto3 Cost Explorer client is abstracted by the results of its two
  queries, passed as `Except` parameters (a `ClientError` carries its error
  code, any other exception carries a message).
* `requests.post` plus `raise_for_status` is abstracted by a function
  `att : ℕ → AttemptResult` giving the outcome of each successive attempt.
* `os.environ` is abstracted by an `Option String` for `SLACK_WEBHOOK_URL`.
-/

namespace CostTuuti

/-- One entry of `daily_costs['Groups']`: `Keys[0]` and the parsed
`Metrics.UnblendedCost.Amount`. -/
structure Group where
  key : String
  amount : ℚ
deriving DecidableEq

/-- The forecast response's `Total.Amount` field: either the literal string
"N/A" (the sentinel installed on `DataUnavailableException`) or a decimal
numeral string, which `format_cost_message` parses with `float`. -/
inductive ForecastAmount
  | na
  | dec (q : ℚ)
deriving DecidableEq

/-- The dictionary returned by `get_cost_data`: the daily-cost groups and the
forecast total amount. -/
structure CostData where
  groups : List Group
  forecast : ForecastAmount
deriving DecidableEq

/-- Python exceptions that occur in this program: botocore `ClientError`
(carrying its error code and message), `KeyError` (carrying the missing key),
`requests.exceptions.RequestException`, and any other exception. -/
inductive Exc
  | clientError (code : String) (msg : String)
  | keyError (key : String)
  | requestException (msg : String)
  | other (msg : String)
deriving DecidableEq

/-- Python `str(e)` for each modelled exception (`str` of a `KeyError` is the
repr of the key, i.e. the key in single quotes). -/
def Exc.str : Exc → String
  | .clientError _ msg => msg
  | .keyError key => "\x27" ++ key ++ "\x27"
  | .requestException msg => msg
  | .other msg => msg

/-- Embedding of `get_cost_data`. `daily` is the result of
`client.get_cost_and_usage` (its `Groups`), `forecastQ` the result of
`client.get_cost_forecast` (its `Total.Amount` parsed as a rational). The
inner handler catches only a `ClientError` whose code is
`DataUnavailableException`, substituting the "N/A" sentinel; every other
error is re-raised (the outer handler logs and re-raises). -/
def get_cost_data (daily : Except Exc (List Group)) (forecastQ : Except Exc ℚ) :
    Except Exc CostData :=
  match daily with
  | .error e => .error e
  | .ok groups =>
    match forecastQ with
    | .ok q => .ok ⟨groups, .dec q⟩
    | .error (.clientError code msg) =>
      if code = "DataUnavailableException" then .ok ⟨groups, .na⟩
      else .error (.clientError code msg)
    | .error e => .error e

/-- The `service_costs` list before sorting: for each group, keep
`(Keys[0], amount)` when `amount > 0.01`. -/
def filteredCosts (groups : List Group) : List (String × ℚ) :=
  (groups.filter (fun g => decide ((1 : ℚ)/100 < g.amount))).map
    (fun g => (g.key, g.amount))

/-- The ordering used by `service_costs.sort(key=lambda x: x[1], reverse=True)`:
`p` may precede `q` when `q`'s amount is at most `p`'s. -/
def descR (p q : String × ℚ) : Prop := q.2 ≤ p.2

instance : DecidableRel descR := fun p q => inferInstanceAs (Decidable (q.2 ≤ p.2))

instance : IsTotal (String × ℚ) descR := ⟨fun p q => le_total q.2 p.2⟩

instance : IsTrans (String × ℚ) descR := ⟨fun _ _ _ h1 h2 => le_trans h2 h1⟩

/-- The `service_costs` list after the stable descending sort by amount
(Python's `list.sort` is stable; a stable sort's output is uniquely determined,
and `List.insertionSort` is stable). -/
def service_costs (groups : List Group) : List (String × ℚ) :=
  (filteredCosts groups).insertionSort descR

/-- Rounding of `x` to the nearest integer, ties to even, as Python's float
formatting does. -/
def roundHalfEven (x : ℚ) : ℤ :=
  let f : ℤ := ⌊x⌋
  let frac : ℚ := x - f
  if frac < 1/2 then f
  else if 1/2 < frac then f + 1
  else if f % 2 = 0 then f else f + 1

/-- Rendering of a natural number below 100 as exactly two digits. -/
def twoDigits (m : ℕ) : String :=
  (if m < 10 then "0" else "") ++ toString m

/-- The Python format specifier `:.2f`: fixed-point notation with exactly two
digits after the decimal point. -/
def fmt2 (q : ℚ) : String :=
  let n := roundHalfEven (q * 100)
  let sign := if n < 0 then "-" else ""
  sign ++ toString (n.natAbs / 100) ++ "." ++ twoDigits (n.natAbs % 100)

/-- The `forecast_display` string: the literal "データ不足" (Japanese for
"insufficient data") when the amount is the "N/A" sentinel, otherwise a dollar
sign followed by the amount with two decimals. -/
def forecast_display : ForecastAmount → String
  | .na => "データ不足"
  | .dec q => "$" ++ fmt2 q

/-- Python `sum(cost[1] for cost in service_costs)`: the displayed total, built
from the filtered and sorted list. -/
def totalAmount (groups : List Group) : ℚ :=
  ((service_costs groups).map Prod.snd).sum

/-- A Slack Block Kit display block, tagged by its `type` discriminator:
`header` (plain text), `section` with `fields`, `divider`, or `section` with a
single `mrkdwn` text. -/
inductive Block
  | header (text : String)
  | fieldsSection (fields : List String)
  | divider
  | textSection (text : String)
deriving DecidableEq

/-- The bullet lines of the itemized section: one line per service of the
top-10 slice `service_costs[:10]`. -/
def serviceLines (groups : List Group) : List String :=
  ((service_costs groups).take 10).map
    (fun p => "• " ++ p.1 ++ ": $" ++ fmt2 p.2 ++ "\n")

/-- The accumulated `service_cost_text` string. -/
def service_cost_text (groups : List Group) : String :=
  "*サービス別内訳:*\n" ++ String.join (serviceLines groups)

/-- Embedding of `format_cost_message`. `today` is the string
`datetime.now().strftime` produces for the invocation date. Returns the
`blocks` list of the payload. -/
def format_cost_message (cost_data : CostData) (today : String) : List Block :=
  [ .header ("AWS利用料金レポート (" ++ today ++ ")"),
    .fieldsSection
      [ "*昨日の総利用料金:*\n$" ++ fmt2 (totalAmount cost_data.groups),
        "*今月の予測総額:*\n" ++ forecast_display cost_data.forecast ],
    .divider,
    .textSection (service_cost_text cost_data.groups) ]

/-- Outcome of one `requests.post` + `raise_for_status` attempt: a 2xx success,
a `RequestException` (transport failure or non-success status), or any other
exception. -/
inductive AttemptResult
  | success
  | requestException (msg : String)
  | otherError (msg : String)
deriving DecidableEq

/-- How a call of `notify_slack` terminates: `returned i` (the response of
attempt `i` is returned), `returnedNone` (the `for` loop body never ran and the
function falls through, returning `None`), or a raised exception. -/
inductive NotifyOutcome
  | returned (attempt : ℕ)
  | returnedNone
  | raisedRequestExc (msg : String)
  | raisedOther (msg : String)
  | raisedKeyError
deriving DecidableEq

/-- Trace of one `notify_slack` call: how it terminated, how many POST attempts
it performed, and how many `time.sleep(1)` calls it executed. -/
structure NotifyResult where
  outcome : NotifyOutcome
  posts : ℕ
  sleeps : ℕ
deriving DecidableEq

/-- The `for attempt in range(retry_count)` loop of `notify_slack`:
`remaining` attempts are left and the current attempt index is `idx`. A
`RequestException` on the last attempt (`attempt == retry_count - 1`) is
re-raised; on earlier attempts the loop sleeps one second and retries. Any
other exception propagates at once; a success returns at once. -/
def notifyLoop (att : ℕ → AttemptResult) : ℕ → ℕ → NotifyResult
  | 0, _ => ⟨.returnedNone, 0, 0⟩
  | remaining + 1, idx =>
    match att idx with
    | .success => ⟨.returned idx, 1, 0⟩
    | .otherError msg => ⟨.raisedOther msg, 1, 0⟩
    | .requestException msg =>
      if remaining = 0 then ⟨.raisedRequestExc msg, 1, 0⟩
      else
        let r := notifyLoop att remaining (idx + 1)
        ⟨r.outcome, r.posts + 1, r.sleeps + 1⟩

/-- Embedding of `notify_slack`. `message` is the payload (it does not
influence the control flow); `env` is `os.environ` at key `SLACK_WEBHOOK_URL`
(`none` makes the lookup raise `KeyError` before any attempt); `att` gives each
attempt's outcome; `retry_count` is a Python int, so `range(retry_count)` is
empty when it is not positive. -/
def notify_slack (message : List Block) (env : Option String)
    (att : ℕ → AttemptResult) (retry_count : ℤ) : NotifyResult :=
  match env with
  | none => ⟨.raisedKeyError, 0, 0⟩
  | some _ => notifyLoop att retry_count.toNat 0

/-- The default value of the `retry_count` parameter. -/
def defaultRetryCount : ℤ := 3

/-- The exception a `notify_slack` call raises, if any. -/
def notifyExc : NotifyOutcome → Option Exc
  | .raisedRequestExc msg => some (.requestException msg)
  | .raisedOther msg => some (.other msg)
  | .raisedKeyError => some (.keyError "SLACK_WEBHOOK_URL")
  | _ => none

/-- The Lambda proxy response dictionary: `statusCode` and `body`. -/
structure HandlerResponse where
  statusCode : ℕ
  body : String
deriving DecidableEq

/-- JSON string escaping as performed by `json.dumps` on the strings occurring
here (backslash and double quote; the messages contain no control characters).
-/
def jsonEscapeChars : List Char → String
  | [] => ""
  | c :: cs =>
    (if c = '\\' then "\\\\"
     else if c = '"' then "\\\""
     else String.singleton c) ++ jsonEscapeChars cs

/-- Python `json.dumps` applied to a string: the escaped string in double
quotes. -/
def jsonDumps (s : String) : String := "\"" ++ jsonEscapeChars s.data ++ "\""

/-- The single-block payload built for the secondary error notification. -/
def errorBlocks (error_message : String) : List Block :=
  [ .textSection ("*AWS Cost Notification Error*\n" ++ error_message) ]

/-- Result of one `lambda_handler` invocation: the returned response and, when
the error path ran, the trace of the secondary error notification (whose own
outcome is swallowed by the bare `except`). -/
structure HandlerTrace where
  response : HandlerResponse
  secondaryNotify : Option NotifyResult
deriving DecidableEq

/-- The `except Exception` branch of `lambda_handler`: builds the error
message, attempts one secondary notification through the same `notify_slack`
(any failure of which is swallowed), and returns a 500 response whose body is
the JSON-encoded error message. -/
def handleError (env : Option String) (attS : ℕ → AttemptResult) (e : Exc) :
    HandlerTrace :=
  let error_message := "Error occurred: " ++ e.str
  ⟨⟨500, jsonDumps error_message⟩,
   some (notify_slack (errorBlocks error_message) env attS defaultRetryCount)⟩

/-- Embedding of `lambda_handler`. `daily` and `forecastQ` are the billing
query results, `env` the webhook environment variable, `attP` and `attS` the
attempt outcomes of the primary and of the secondary `notify_slack` call, and
`today` the invocation date string. -/
def lambda_handler (daily : Except Exc (List Group)) (forecastQ : Except Exc ℚ)
    (env : Option String) (attP attS : ℕ → AttemptResult) (today : String) :
    HandlerTrace :=
  match get_cost_data daily forecastQ with
  | .error e => handleError env attS e
  | .ok cost_data =>
    let message := format_cost_message cost_data today
    let r := notify_slack message env attP defaultRetryCount
    match notifyExc r.outcome with
    | some e => handleError env attS e
    | none => ⟨⟨200, jsonDumps "Cost notification sent successfully!"⟩, none⟩

/-- The three-service scenario of the specification: A=$12.50, B=$0.004,
C=$7.25. -/
def scenarioGroups : List Group :=
  [⟨"A", 25/2⟩, ⟨"B", 1/250⟩, ⟨"C", 29/4⟩]

/-- An attempt function for which every attempt fails with a
`RequestException`. -/
def attAllFail : ℕ → AttemptResult := fun _ => .requestException "boom"

/-- An attempt function for which the first attempt succeeds. -/
def attOk : ℕ → AttemptResult := fun _ => .success

/-- An attempt function whose first attempt fails with a `RequestException`
and whose second raises a non-request exception. -/
def attOtherSecond : ℕ → AttemptResult := fun i =>
  if i = 0 then .requestException "boom" else .otherError "bug"

end CostTuuti
namespace CostTuuti

/-- Helper: the loop performs at most `r` POST attempts. -/
theorem notifyLoop_posts_le (att : ℕ → AttemptResult) :
    ∀ r idx : ℕ, (notifyLoop att r idx).posts ≤ r := by
  intro r
  induction r with
  | zero => intro idx; simp [notifyLoop]
  | succ r ih =>
    intro idx
    rcases hatt : att idx with _ | msg | msg
    · simp [notifyLoop, hatt]
    · rcases Nat.eq_zero_or_pos r with hr | hr
      · simp [notifyLoop, hatt, hr]
      · have hr0 : r ≠ 0 := Nat.pos_iff_ne_zero.mp hr
        simp only [notifyLoop, hatt, if_neg hr0]
        exact Nat.succ_le_succ (ih (idx + 1))
    · simp [notifyLoop, hatt]

/-- Helper: when every one of the `r ≥ 1` attempts starting at `idx` raises a
`RequestException`, the loop re-raises the final attempt's exception after `r`
POSTs and `r - 1` sleeps. -/
theorem notifyLoop_all_fail (att : ℕ → AttemptResult) (msgs : ℕ → String) :
    ∀ r idx : ℕ, 1 ≤ r →
      (∀ k, k < r → att (idx + k) = .requestException (msgs (idx + k))) →
      notifyLoop att r idx =
        ⟨.raisedRequestExc (msgs (idx + (r - 1))), r, r - 1⟩ := by
  intro r
  induction r with
  | zero => omega
  | succ r ih =>
    intro idx _ h
    have hatt : att idx = .requestException (msgs idx) := h 0 (by omega)
    rcases Nat.eq_zero_or_pos r with hr | hr
    · subst hr
      simp [notifyLoop, hatt]
    · have hr0 : r ≠ 0 := Nat.pos_iff_ne_zero.mp hr
      have h' : ∀ k, k < r →
          att (idx + 1 + k) = .requestException (msgs (idx + 1 + k)) := by
        intro k hk
        have h2 := h (k + 1) (by omega)
        rwa [show idx + (k + 1) = idx + 1 + k by omega] at h2
      simp only [notifyLoop, hatt, if_neg hr0, ih (idx + 1) hr h']
      have hidx : idx + 1 + (r - 1) = idx + (r + 1 - 1) := by omega
      have hsl : r - 1 + 1 = r + 1 - 1 := by omega
      simp [hidx, hsl]

/-- Helper: when the first `d` attempts starting at `idx` raise
`RequestException`s and attempt `idx + d` succeeds, the loop returns that
attempt's response after `d + 1` POSTs and `d` sleeps. -/
theorem notifyLoop_first_success (att : ℕ → AttemptResult) (msgs : ℕ → String) :
    ∀ r idx d : ℕ, d < r → att (idx + d) = .success →
      (∀ k, k < d → att (idx + k) = .requestException (msgs (idx + k))) →
      notifyLoop att r idx = ⟨.returned (idx + d), d + 1, d⟩ := by
  intro r
  induction r with
  | zero => omega
  | succ r ih =>
    intro idx d hd hsucc h
    rcases Nat.eq_zero_or_pos d with hd0 | hdpos
    · subst hd0
      simp only [Nat.add_zero] at hsucc
      simp [notifyLoop, hsucc]
    · have hatt : att idx = .requestException (msgs idx) := h 0 (by omega)
      have hr0 : r ≠ 0 := by omega
      have h' : ∀ k, k < d - 1 →
          att (idx + 1 + k) = .requestException (msgs (idx + 1 + k)) := by
        intro k hk
        have h2 := h (k + 1) (by omega)
        rwa [show idx + (k + 1) = idx + 1 + k by omega] at h2
      have hsucc' : att (idx + 1 + (d - 1)) = .success := by
        rwa [show idx + 1 + (d - 1) = idx + d by omega]
      have hrec := ih (idx + 1) (d - 1) (by omega) hsucc' h'
      simp only [notifyLoop, hatt, if_neg hr0, hrec]
      have h1 : idx + 1 + (d - 1) = idx + d := by omega
      have h2 : d - 1 + 1 = d := by omega
      simp [h1, h2]

/-- Helper: when the first `d` attempts starting at `idx` raise
`RequestException`s and attempt `idx + d` raises a non-request exception, that
exception propagates at once: `d + 1` POSTs, `d` sleeps, no further attempts.
-/
theorem notifyLoop_other_exc (att : ℕ → AttemptResult) (msgs : ℕ → String)
    (m : String) :
    ∀ r idx d : ℕ, d < r → att (idx + d) = .otherError m →
      (∀ k, k < d → att (idx + k) = .requestException (msgs (idx + k))) →
      notifyLoop att r idx = ⟨.raisedOther m, d + 1, d⟩ := by
  intro r
  induction r with
  | zero => omega
  | succ r ih =>
    intro idx d hd hother h
    rcases Nat.eq_zero_or_pos d with hd0 | hdpos
    · subst hd0
      simp only [Nat.add_zero] at hother
      simp [notifyLoop, hother]
    · have hatt : att idx = .requestException (msgs idx) := h 0 (by omega)
      have hr0 : r ≠ 0 := by omega
      have h' : ∀ k, k < d - 1 →
          att (idx + 1 + k) = .requestException (msgs (idx + 1 + k)) := by
        intro k hk
        have h2 := h (k + 1) (by omega)
        rwa [show idx + (k + 1) = idx + 1 + k by omega] at h2
      have hother' : att (idx + 1 + (d - 1)) = .otherError m := by
        rwa [show idx + 1 + (d - 1) = idx + d by omega]
      have hrec := ih (idx + 1) (d - 1) (by omega) hother' h'
      simp only [notifyLoop, hatt, if_neg hr0, hrec]
      have h2 : d - 1 + 1 = d := by omega
      simp [h2]

/-- C2: with the webhook address present, `notify_slack` posts at most
`retry_count` times; if all `retry_count ≥ 1` attempts fail with request
exceptions it re-raises the last one after exactly `retry_count` POSTs with a
one-second sleep between consecutive attempts but none after the last
(`retry_count - 1` sleeps); and on the first successful attempt `j` it returns
immediately: `j + 1` POSTs, `j` sleeps, no further attempts. The default
`retry_count` is 3. -/
theorem notify_retry_policy (message : List Block) (url : String)
    (att : ℕ → AttemptResult) (msgs : ℕ → String) (n : ℤ) (hn : 1 ≤ n) :
    defaultRetryCount = 3
    ∧ (notify_slack message (some url) att n).posts ≤ n.toNat
    ∧ ((∀ k, k < n.toNat → att k = .requestException (msgs k)) →
        notify_slack message (some url) att n =
          ⟨.raisedRequestExc (msgs (n.toNat - 1)), n.toNat, n.toNat - 1⟩)
    ∧ (∀ j, j < n.toNat → att j = .success →
        (∀ k, k < j → att k = .requestException (msgs k)) →
        notify_slack message (some url) att n = ⟨.returned j, j + 1, j⟩) := by
  refine ⟨rfl, notifyLoop_posts_le att n.toNat 0, ?_, ?_⟩
  · intro h
    have := notifyLoop_all_fail att msgs n.toNat 0 (by omega) (by simpa using h)
    simpa using this
  · intro j hj hsucc h
    have := notifyLoop_first_success att msgs n.toNat 0 j hj
      (by simpa using hsucc) (by simpa using h)
    simpa using this

/-- Witness for C2: with three attempts all failing, `notify_slack` raises the
request exception after 3 POSTs and 2 sleeps. -/
theorem notify_retry_policy_witness :
    notify_slack [] (some "u") attAllFail 3 =
      ⟨.raisedRequestExc "boom", 3, 2⟩ :=
  (notify_retry_policy [] "u" attAllFail (fun _ => "boom") 3 (by decide)).2.2.1
    (fun _ _ => rfl)

/-- C8: with `SLACK_WEBHOOK_URL` absent from the environment, `notify_slack`
raises `KeyError` before any POST attempt and without any sleep, for every
payload and retry count. -/
theorem notify_missing_env (message : List Block) (att : ℕ → AttemptResult)
    (n : ℤ) :
    notify_slack message none att n = ⟨.raisedKeyError, 0, 0⟩ := rfl

/-- C9: with `retry_count ≤ 0`, `range(retry_count)` is empty, so
`notify_slack` performs no POST at all and falls through, returning `None`
rather than raising. -/
theorem notify_nonpositive_retry (message : List Block) (url : String)
    (att : ℕ → AttemptResult) (n : ℤ) (hn : n ≤ 0) :
    notify_slack message (some url) att n = ⟨.returnedNone, 0, 0⟩ := by
  simp only [notify_slack, Int.toNat_of_nonpos hn]
  rfl

/-- Witness for C9: retry count 0 performs no attempt and returns `None`. -/
theorem notify_nonpositive_retry_witness :
    notify_slack [] (some "u") attAllFail 0 = ⟨.returnedNone, 0, 0⟩ :=
  notify_nonpositive_retry [] "u" attAllFail 0 (by decide)

/-- C10: a non-`RequestException` raised while posting propagates out of
`notify_slack` immediately on that attempt: previous failed attempts slept,
but the raising attempt is the last POST and is followed by no sleep and no
further attempt. -/
theorem notify_other_exception_propagates (message : List Block) (url : String)
    (att : ℕ → AttemptResult) (msgs : ℕ → String) (m : String) (n : ℤ)
    (d : ℕ) (hd : d < n.toNat) (hother : att d = .otherError m)
    (h : ∀ k, k < d → att k = .requestException (msgs k)) :
    notify_slack message (some url) att n = ⟨.raisedOther m, d + 1, d⟩ := by
  have := notifyLoop_other_exc att msgs m n.toNat 0 d hd
    (by simpa using hother) (by simpa using h)
  simpa using this

/-- Witness for C10: the second attempt raises a non-request exception, which
propagates after 2 POSTs and 1 sleep. -/
theorem notify_other_exception_propagates_witness :
    notify_slack [] (some "u") attOtherSecond 3 = ⟨.raisedOther "bug", 2, 1⟩ :=
  notify_other_exception_propagates [] "u" attOtherSecond (fun _ => "boom")
    "bug" 3 1 (by decide) rfl
    (fun k hk => by interval_cases k <;> rfl)

end CostTuuti
namespace CostTuuti

/-- Helper: sorting does not change which records appear. -/
theorem mem_service_costs {groups : List Group} {p : String × ℚ} :
    p ∈ service_costs groups ↔ p ∈ filteredCosts groups :=
  List.mem_insertionSort descR

/-- Helper: the displayed total is the sum of the filtered amounts (sorting
permutes the list, so the sum is unchanged). -/
theorem totalAmount_eq (groups : List Group) :
    totalAmount groups = ((filteredCosts groups).map Prod.snd).sum := by
  unfold totalAmount service_costs
  exact List.Perm.sum_eq
    (List.Perm.map Prod.snd (List.perm_insertionSort descR (filteredCosts groups)))

/-- C1: every record of the displayed list has amount above 0.01; every input
record with amount at most 0.01 is excluded; the displayed total is the sum of
the filtered amounts; and on the scenario A=$12.50, B=$0.004, C=$7.25 the
list is [A, C], the total is $19.75 and it is rendered "19.75". -/
theorem format_filters_and_totals (groups : List Group) :
    (∀ p ∈ service_costs groups, (1 : ℚ)/100 < p.2)
    ∧ (∀ g ∈ groups, g.amount ≤ 1/100 → (g.key, g.amount) ∉ service_costs groups)
    ∧ totalAmount groups
        = ((groups.filter (fun g => decide ((1 : ℚ)/100 < g.amount))).map
            Group.amount).sum
    ∧ service_costs scenarioGroups = [("A", 25/2), ("C", 29/4)]
    ∧ totalAmount scenarioGroups = 79/4
    ∧ fmt2 (totalAmount scenarioGroups) = "19.75" := by
  refine ⟨?_, ?_, ?_, ?_, ?_, ?_⟩
  · intro p hp
    have hm := mem_service_costs.mp hp
    simp only [filteredCosts, List.mem_map, List.mem_filter] at hm
    obtain ⟨g, ⟨-, hg⟩, rfl⟩ := hm
    simpa using hg
  · intro g hg hle hmem
    have hm := mem_service_costs.mp hmem
    simp only [filteredCosts, List.mem_map, List.mem_filter] at hm
    obtain ⟨g', ⟨-, hg'⟩, heq⟩ := hm
    have h2 := congrArg Prod.snd heq
    simp only [decide_eq_true_eq] at hg'
    simp only at h2
    rw [h2] at hg'
    linarith
  · rw [totalAmount_eq]
    simp only [filteredCosts, List.map_map]
    rfl
  · norm_num [service_costs, filteredCosts, scenarioGroups, descR]
  · norm_num [totalAmount, service_costs, filteredCosts, scenarioGroups, descR]
  · have h : totalAmount scenarioGroups = 79/4 := by
      norm_num [totalAmount, service_costs, filteredCosts, scenarioGroups, descR]
    rw [h]
    norm_num [fmt2, roundHalfEven, twoDigits]
    decide

/-- C5: the displayed service list is sorted descending by amount, and the
records of any fixed amount `v` appear in exactly their original relative
order (stability: filtering the sorted list to one amount gives the filtered
input in input order). -/
theorem service_costs_sorted_stable (groups : List Group) (v : ℚ) :
    (service_costs groups).Sorted descR
    ∧ (service_costs groups).filter (fun p => decide (p.2 = v))
        = (filteredCosts groups).filter (fun p => decide (p.2 = v)) := by
  constructor
  · exact List.sorted_insertionSort descR (filteredCosts groups)
  · have hall : ∀ a ∈ (filteredCosts groups).filter (fun p => decide (p.2 = v)),
        ∀ b ∈ (filteredCosts groups).filter (fun p => decide (p.2 = v)), descR a b := by
      intro a ha b hb
      have ha' := (List.mem_filter.mp ha).2
      have hb' := (List.mem_filter.mp hb).2
      simp only [decide_eq_true_eq] at ha' hb'
      unfold descR
      rw [ha', hb']
    have hpw := List.pairwise_of_forall_mem_list hall
    have hsub : List.Sublist
        ((filteredCosts groups).filter (fun p => decide (p.2 = v)))
        (service_costs groups) :=
      List.sublist_insertionSort hpw (List.filter_sublist (filteredCosts groups))
    have hself : ((filteredCosts groups).filter (fun p => decide (p.2 = v))).filter
        (fun p => decide (p.2 = v))
        = (filteredCosts groups).filter (fun p => decide (p.2 = v)) :=
      List.filter_eq_self.mpr (fun a ha => (List.mem_filter.mp ha).2)
    have hsub2 : List.Sublist
        ((filteredCosts groups).filter (fun p => decide (p.2 = v)))
        ((service_costs groups).filter (fun p => decide (p.2 = v))) := by
      have := hsub.filter (fun p => decide (p.2 = v))
      rwa [hself] at this
    have hperm : List.Perm
        ((service_costs groups).filter (fun p => decide (p.2 = v)))
        ((filteredCosts groups).filter (fun p => decide (p.2 = v))) :=
      (List.perm_insertionSort descR (filteredCosts groups)).filter _
    exact (hsub2.eq_of_length hperm.length_eq.symm).symm

/-- C6: the itemized section lists at most 10 services, while the displayed
total is the sum over the whole filtered list (unchanged by the truncation);
the payload's summary field uses that full sum and its itemized block uses
only the top-10 slice. -/
theorem itemized_top10 (cost_data : CostData) (today : String) :
    (serviceLines cost_data.groups).length ≤ 10
    ∧ totalAmount cost_data.groups
        = ((filteredCosts cost_data.groups).map Prod.snd).sum
    ∧ format_cost_message cost_data today =
        [ .header ("AWS利用料金レポート (" ++ today ++ ")"),
          .fieldsSection
            [ "*昨日の総利用料金:*\n$"
                ++ fmt2 (((filteredCosts cost_data.groups).map Prod.snd).sum),
              "*今月の予測総額:*\n" ++ forecast_display cost_data.forecast ],
          .divider,
          .textSection ("*サービス別内訳:*\n"
              ++ String.join (((service_costs cost_data.groups).take 10).map
                  (fun p => "• " ++ p.1 ++ ": $" ++ fmt2 p.2 ++ "\n"))) ] := by
  refine ⟨?_, totalAmount_eq _, ?_⟩
  · simp only [serviceLines, List.length_map, List.length_take]
    exact min_le_left 10 _
  · simp only [format_cost_message, service_cost_text, serviceLines,
      totalAmount_eq]

/-- C7: a failing daily-cost query makes the whole fetch fail with that error,
and so does any forecast error other than a `ClientError` with code
`DataUnavailableException`; no partial cost data is returned in any of these
cases. -/
theorem fetch_error_propagation (groups : List Group) (e : Exc)
    (fq : Except Exc ℚ) (code m : String)
    (hcode : code ≠ "DataUnavailableException") :
    get_cost_data (.error e) fq = .error e
    ∧ get_cost_data (.ok groups) (.error (.clientError code m))
        = .error (.clientError code m)
    ∧ (∀ k, get_cost_data (.ok groups) (.error (.keyError k))
        = .error (.keyError k))
    ∧ (∀ s, get_cost_data (.ok groups) (.error (.requestException s))
        = .error (.requestException s))
    ∧ (∀ s, get_cost_data (.ok groups) (.error (.other s))
        = .error (.other s)) := by
  refine ⟨rfl, ?_, fun k => rfl, fun s => rfl, fun s => rfl⟩
  simp [get_cost_data, hcode]

/-- Witness for C7 at a throttling error and a failing daily query. -/
theorem fetch_error_propagation_witness :
    get_cost_data (.error (.other "x")) (.ok 0) = .error (.other "x")
    ∧ get_cost_data (.ok [])
        (.error (.clientError "ThrottlingException" "throttled"))
        = .error (.clientError "ThrottlingException" "throttled")
    ∧ (∀ k, get_cost_data (.ok []) (.error (.keyError k))
        = .error (.keyError k))
    ∧ (∀ s, get_cost_data (.ok []) (.error (.requestException s))
        = .error (.requestException s))
    ∧ (∀ s, get_cost_data (.ok []) (.error (.other s)) = .error (.other s)) :=
  fetch_error_propagation [] (.other "x") (.ok 0) "ThrottlingException"
    "throttled" (by decide)

/-- C4 counterexample: the unavailable-forecast sentinel is rendered as the
Japanese literal "データ不足", which is not the string "insufficient data". -/
theorem forecast_sentinel_counterexample :
    forecast_display .na = "データ不足"
    ∧ forecast_display .na ≠ "insufficient data" :=
  ⟨rfl, by decide⟩

/-- C4 (amended): on a `DataUnavailableException` forecast error the fetcher
substitutes the "N/A" sentinel, the formatter renders the forecast field with
the fixed text "データ不足" ("insufficient data"), otherwise with a dollar sign
and two decimals, and the pipeline still reaches the notifier, so a successful
delivery yields statusCode 200. -/
theorem forecast_unavailable_flow (groups : List Group) (m today : String)
    (env : Option String) (attP attS : ℕ → AttemptResult) (j : ℕ)
    (hnotify : (notify_slack (format_cost_message ⟨groups, .na⟩ today) env attP
        defaultRetryCount).outcome = .returned j) :
    get_cost_data (.ok groups)
        (.error (.clientError "DataUnavailableException" m)) = .ok ⟨groups, .na⟩
    ∧ forecast_display .na = "データ不足"
    ∧ (∀ q, forecast_display (.dec q) = "$" ++ fmt2 q)
    ∧ format_cost_message ⟨groups, .na⟩ today =
        [ .header ("AWS利用料金レポート (" ++ today ++ ")"),
          .fieldsSection
            [ "*昨日の総利用料金:*\n$" ++ fmt2 (totalAmount groups),
              "*今月の予測総額:*\nデータ不足" ],
          .divider,
          .textSection (service_cost_text groups) ]
    ∧ (lambda_handler (.ok groups)
          (.error (.clientError "DataUnavailableException" m)) env attP attS
          today).response.statusCode = 200 := by
  have hfetch : get_cost_data (.ok groups)
      (.error (.clientError "DataUnavailableException" m)) = .ok ⟨groups, .na⟩ := by
    simp [get_cost_data]
  refine ⟨hfetch, rfl, fun q => rfl, rfl, ?_⟩
  simp only [lambda_handler, hfetch, hnotify, notifyExc]

/-- Witness for C4 (amended) on an empty service list and a first-attempt
delivery success. -/
theorem forecast_unavailable_flow_witness :
    get_cost_data (.ok [])
        (.error (.clientError "DataUnavailableException" "nodata"))
        = .ok ⟨[], .na⟩
    ∧ forecast_display .na = "データ不足"
    ∧ (∀ q, forecast_display (.dec q) = "$" ++ fmt2 q)
    ∧ format_cost_message ⟨[], .na⟩ "2026-10-12" =
        [ .header ("AWS利用料金レポート (" ++ "2026-10-12" ++ ")"),
          .fieldsSection
            [ "*昨日の総利用料金:*\n$" ++ fmt2 (totalAmount []),
              "*今月の予測総額:*\nデータ不足" ],
          .divider,
          .textSection (service_cost_text []) ]
    ∧ (lambda_handler (.ok [])
          (.error (.clientError "DataUnavailableException" "nodata"))
          (some "u") attOk attOk "2026-10-12").response.statusCode = 200 :=
  forecast_unavailable_flow [] "nodata" "2026-10-12" (some "u") attOk attOk 0 rfl

/-- C3: the handler returns 200 with the fixed JSON confirmation body when
fetch and the primary notification succeed; when the fetch raises, or the
primary notification raises, it returns 500 with the original error message
JSON-encoded, after exactly one secondary error notification through
`notify_slack`, whose own outcome (for every `attS`) never changes the
response. -/
theorem handler_outcomes (daily : Except Exc (List Group)) (fq : Except Exc ℚ)
    (env : Option String) (attP attS : ℕ → AttemptResult) (today : String) :
    (∀ cd j, get_cost_data daily fq = .ok cd →
      (notify_slack (format_cost_message cd today) env attP
          defaultRetryCount).outcome = .returned j →
      lambda_handler daily fq env attP attS today =
        ⟨⟨200, "\"Cost notification sent successfully!\""⟩, none⟩)
    ∧ (∀ e, get_cost_data daily fq = .error e →
      lambda_handler daily fq env attP attS today =
        ⟨⟨500, jsonDumps ("Error occurred: " ++ e.str)⟩,
         some (notify_slack (errorBlocks ("Error occurred: " ++ e.str)) env
            attS defaultRetryCount)⟩)
    ∧ (∀ cd e, get_cost_data daily fq = .ok cd →
      notifyExc (notify_slack (format_cost_message cd today) env attP
          defaultRetryCount).outcome = some e →
      lambda_handler daily fq env attP attS today =
        ⟨⟨500, jsonDumps ("Error occurred: " ++ e.str)⟩,
         some (notify_slack (errorBlocks ("Error occurred: " ++ e.str)) env
            attS defaultRetryCount)⟩) := by
  refine ⟨?_, ?_, ?_⟩
  · intro cd j hfetch hnot
    simp only [lambda_handler, hfetch, hnot, notifyExc]
    rfl
  · intro e hfetch
    simp only [lambda_handler, hfetch, handleError]
  · intro cd e hfetch hnot
    simp only [lambda_handler, hfetch, hnot, handleError]

end CostTuuti
